import Mathlib

/-!
Shallow embedding of the interactive-configuration layer of `auto_moos.py`
(the `Logger` message queue, the `Field`/`Profile` data model, and the
`CursesApp` selection / text-input loops), together with theorems settling
the specification claims about it.

Python strings are modeled as Lean `String`s (sequences of Unicode code
points, matching Python's `len`/indexing semantics).  Python's character
classification builtins (`isnumeric`, `islower`, `isalnum`, `isprintable`,
`isascii`) are modeled on the ASCII range plus the handful of non-ASCII
Unicode numerics used in this development (Python's `str.isnumeric` accepts
every character with a Unicode `Numeric_Type`, e.g. the vulgar fractions).
-/

namespace AutoMoos

/-- ASCII lowercase letter `a`–`z`. -/
def isAsciiLower (c : Char) : Bool := 97 ≤ c.toNat && c.toNat ≤ 122

/-- ASCII uppercase letter `A`–`Z`. -/
def isAsciiUpper (c : Char) : Bool := 65 ≤ c.toNat && c.toNat ≤ 90

/-- ASCII decimal digit `0`–`9`. -/
def isAsciiDigit (c : Char) : Bool := 48 ≤ c.toNat && c.toNat ≤ 57

/-- Non-ASCII characters with a Unicode `Numeric_Type`, as accepted by
Python's `str.isnumeric` (a representative sample: the vulgar fractions
and superscript digits that appear in this development; Python accepts
many more). -/
def pyNumericExtra (c : Char) : Bool :=
  c = '¼' || c = '½' || c = '¾' || c = '¹' || c = '²' || c = '³'

/-- A character counted as numeric by Python's `str.isnumeric`. -/
def pyIsNumericChar (c : Char) : Bool := isAsciiDigit c || pyNumericExtra c

/-- Python `str.isnumeric`: non-empty and every character numeric. -/
def pyIsNumeric (s : String) : Bool :=
  !s.data.isEmpty && s.data.all pyIsNumericChar

/-- A cased character (restricted to ASCII letters, the only cased
characters appearing in this development). -/
def pyCased (c : Char) : Bool := isAsciiLower c || isAsciiUpper c

/-- Python `str.islower` on a list of characters: at least one cased
character, and every cased character lowercase. -/
def pyIsLowerList (l : List Char) : Bool :=
  l.any pyCased && l.all (fun c => !pyCased c || isAsciiLower c)

/-- An alphanumeric character for Python's `str.isalnum` (alphabetic or
numeric). -/
def pyIsAlnumChar (c : Char) : Bool := pyCased c || pyIsNumericChar c

/-- Python `str.isalnum` on a list of characters: non-empty and every
character alphanumeric. -/
def pyIsAlnumList (l : List Char) : Bool := !l.isEmpty && l.all pyIsAlnumChar

/-- Python `value.isprintable() and value.isascii()` (the two are only ever
used conjoined in the validators): every character is a printable ASCII
character `0x20`–`0x7e`.  On ASCII strings this equals Python's
`isprintable`, and on strings with a non-ASCII character the conjunction is
false on both sides, so the combined model is faithful on all strings. -/
def pyPrintableAscii (s : String) : Bool :=
  s.data.all (fun c => 32 ≤ c.toNat && c.toNat ≤ 126)

/-- Python `value.startswith("-")`. -/
def startsWithHyphen (s : String) : Bool :=
  match s.data with
  | [] => false
  | c :: _ => c = '-'

/-- Python `response[:-1]`: drop the last character (no-op on empty). -/
def dropLastStr (s : String) : String := String.mk s.data.dropLast

/-!
### Message levels and the `Logger` (`class Level`, `class Message`,
`class Logger` in `auto_moos.py`)
-/

/-- `class Level(IntEnum)`: `normal = 1`, ..., `verbose = 6` (via `auto()`). -/
inductive Level where
  | normal
  | success
  | error
  | warning
  | info
  | verbose
deriving DecidableEq, Repr

/-- The numeric value of the `IntEnum` member. -/
def Level.num : Level → Nat
  | .normal => 1
  | .success => 2
  | .error => 3
  | .warning => 4
  | .info => 5
  | .verbose => 6

/-- `@dataclass class Message`: raw text plus severity level. -/
structure Message where
  raw : String
  level : Level
deriving DecidableEq, Repr

/-- The state of a `Logger`: the FIFO queue (`self._log`, head at the
front), the visibility threshold (`self._level`), and the optional sink
file (`self._log_file`), modeled as the list of lines written to it so far
(`None` when no sink is attached).  Closing the file handle does not change
its accumulated contents, so the open/closed flag is not part of the
observable state modeled here. -/
structure Logger where
  log : List Message
  level : Level
  logFile : Option (List String)
deriving DecidableEq, Repr

/-- Appending one line to the sink file, if one is attached
(`self._log_file.write(msg.raw + "\n")`; the file is modeled as a list of
its newline-terminated lines). -/
def fileWrite (f : Option (List String)) (line : String) : Option (List String) :=
  f.map (fun c => c ++ [line])

/-- `Logger._put`: append a message to the tail of the queue. -/
def Logger.put (l : Logger) (raw : String) (lv : Level) : Logger :=
  { l with log := l.log ++ [⟨raw, lv⟩] }

/-- `Logger._get_next`: pop the head of the queue if present; as a side
effect of the pop, the message is appended to the sink file (before any
threshold check). -/
def Logger.getNext (l : Logger) : Option Message × Logger :=
  match l.log with
  | [] => (none, l)
  | m :: rest => (some m, { l with log := rest, logFile := fileWrite l.logFile m.raw })

/-- ANSI green wrapper (`Logger._green`). -/
def ansiGreen (s : String) : String := "\x1b[1;32m" ++ s ++ "\x1b[0m"

/-- ANSI red wrapper (`Logger._red`). -/
def ansiRed (s : String) : String := "\x1b[1;31m" ++ s ++ "\x1b[0m"

/-- ANSI yellow wrapper (`Logger._yellow`). -/
def ansiYellow (s : String) : String := "\x1b[1;33m" ++ s ++ "\x1b[0m"

/-- ANSI blue wrapper (`Logger._blue`). -/
def ansiBlue (s : String) : String := "\x1b[1;34m" ++ s ++ "\x1b[0m"

/-- `Logger._as_ansi`: level-specific coloring of a message (the
`"[Unknown] "` fallback of the Python code is unreachable, the enum being
exhaustive). -/
def asAnsi (msg : String) (lv : Level) : String :=
  match lv with
  | .normal => msg
  | .success => ansiGreen msg
  | .error => ansiRed msg
  | .warning => ansiYellow msg
  | .info => ansiBlue msg
  | .verbose => msg

/-- The loop body of `Logger.show_all_as_ansi`, recursing on the queue:
`while not empty`, pop via `_get_next` (which files the message), then
`if msg.level > self._level: break`, else print the colored message and
continue.  Returns the remaining queue, the sink-file contents, and the
list of lines printed to standard output. -/
def drainAnsiList (threshold : Level) :
    List Message → Option (List String) → List Message × Option (List String) × List String
  | [], f => ([], f, [])
  | m :: rest, f =>
    let f1 := fileWrite f m.raw
    if threshold.num < m.level.num then (rest, f1, [])
    else
      let r := drainAnsiList threshold rest f1
      (r.1, r.2.1, asAnsi m.raw m.level :: r.2.2)

/-- `Logger.show_all_as_ansi`: drain messages to plain output, stopping
(`break`) at the first message whose level exceeds the threshold.  Returns
the updated logger and the lines printed. -/
def Logger.showAllAsAnsi (l : Logger) : Logger × List String :=
  let r := drainAnsiList l.level l.log l.logFile
  ({ l with log := r.1, logFile := r.2.1 }, r.2.2)

/-- Repeatedly calling `Logger._get_next` until it returns `None`: yields
every queued message in order, filing each one.  Returns the messages in
pop order and the sink-file contents. -/
def drainList : List Message → Option (List String) → List Message × Option (List String)
  | [], f => ([], f)
  | m :: rest, f =>
    let r := drainList rest (fileWrite f m.raw)
    (m :: r.1, r.2)

/-- Draining the whole queue through `Logger._get_next`. -/
def Logger.drainAll (l : Logger) : List Message × Logger :=
  let r := drainList l.log l.logFile
  (r.1, { l with log := [], logFile := r.2 })

/-- `Logger.cleanup`: `self.show_all_as_ansi()` followed by closing the
sink file (closing preserves the file's contents).  Returns the updated
logger and the lines printed. -/
def Logger.cleanup (l : Logger) : Logger × List String :=
  l.showAllAsAnsi

/-- Invoking `Logger.cleanup` once: resulting state and total printed
output. -/
def cleanupOnce (l : Logger) : Logger × List String :=
  l.cleanup

/-- Invoking `Logger.cleanup` twice in a row: resulting state and total
printed output. -/
def cleanupTwice (l : Logger) : Logger × List String :=
  let r1 := l.cleanup
  let r2 := r1.1.cleanup
  (r2.1, r1.2 ++ r2.2)

/-!
### `Field` and `Profile` (`class Field`, `@dataclass class Profile`)
-/

/-- A Python value as stored in a `Field` (the values occurring in a
`Profile` are `None`, booleans, non-negative integers, and strings).
`toStr` is Python's `str()` on these values. -/
inductive PyVal where
  | none
  | bool (b : Bool)
  | int (n : Nat)
  | str (s : String)
deriving DecidableEq, Repr

/-- Python `str(value)`. -/
def PyVal.toStr : PyVal → String
  | .none => "None"
  | .bool true => "True"
  | .bool false => "False"
  | .int n => toString n
  | .str s => s

/-- `Field.default_validator`: accepts everything. -/
def default_validator (_ : String) : Bool := true

/-- `Field.numeric_validator`: rejects unless `value.isnumeric()`.  (The
error message pushed to the logger on rejection is not modeled; the claims
concern only acceptance.) -/
def numeric_validator (value : String) : Bool :=
  if !pyIsNumeric value then false
  else true

/-- `Field.boot_label_validator`: non-empty, printable, ASCII. -/
def boot_label_validator (value : String) : Bool :=
  if value.length = 0 then false
  else if !pyPrintableAscii value then false
  else true

/-- `Field.hostname_validator`: non-empty, at most 64 characters, and the
hyphen-stripped text satisfies Python's `islower()` and `isalnum()`. -/
def hostname_validator (value : String) : Bool :=
  if value.length = 0 then false
  else if 64 < value.length then false
  else if !(pyIsLowerList (value.data.filter (fun c => c ≠ '-'))
      && pyIsAlnumList (value.data.filter (fun c => c ≠ '-'))) then false
  else true

/-- `Field.name_validator`: non-empty, not entirely numeric, does not start
with a hyphen, at most 32 characters, and alphanumeric once hyphens and
underscores are removed. -/
def name_validator (value : String) : Bool :=
  if value.length = 0 then false
  else if pyIsNumeric value then false
  else if startsWithHyphen value then false
  else if 32 < value.length then false
  else if !pyIsAlnumList ((value.data.filter (fun c => c ≠ '-')).filter (fun c => c ≠ '_'))
    then false
  else true

/-- `Field.password_validator`: non-empty, printable, ASCII. -/
def password_validator (value : String) : Bool :=
  if value.length = 0 then false
  else if !pyPrintableAscii value then false
  else true

/-- `class Field`: the stored value and the validator (the `_types` display
tag plays no role in the claims and is not modeled). -/
structure Field where
  value : PyVal
  validator : String → Bool

/-- `Field.get`. -/
def Field.get (f : Field) : PyVal := f.value

/-- `Field.get_str`: empty string when unset, else `str(value)`. -/
def Field.getStr (f : Field) : String :=
  match f.value with
  | .none => ""
  | v => v.toStr

/-- `Field.set`: run the validator on `str(value)`; on success store the
value and return `True`, otherwise leave the field unchanged and return
`False`. -/
def Field.set (f : Field) (v : PyVal) : Field × Bool :=
  if f.validator v.toStr then ({ f with value := v }, true)
  else (f, false)

/-- `@dataclass class Profile`: the eleven named fields, in declaration
order. -/
structure Profile where
  network_install : Field
  min_device_bytes : Field
  device : Field
  boot_label : Field
  time_zone : Field
  hostname : Field
  root_password : Field
  username : Field
  user_password : Field
  sudo_group : Field
  restart : Field

/-- `Profile()`: the default field values and validators from the dataclass
declaration (`int(10e9) = 10000000000`). -/
def defaultProfile : Profile where
  network_install := ⟨.bool false, default_validator⟩
  min_device_bytes := ⟨.int 10000000000, numeric_validator⟩
  device := ⟨.none, default_validator⟩
  boot_label := ⟨.str "MOOS", boot_label_validator⟩
  time_zone := ⟨.str "America/Denver", default_validator⟩
  hostname := ⟨.str "moos", hostname_validator⟩
  root_password := ⟨.str "root", password_validator⟩
  username := ⟨.str "main", name_validator⟩
  user_password := ⟨.str "main", password_validator⟩
  sudo_group := ⟨.str "wheel", name_validator⟩
  restart := ⟨.bool true, default_validator⟩

/-- `Profile.to_dict`: the ordered name-to-value mapping over the dataclass
fields (Python dicts preserve insertion order). -/
def Profile.to_dict (p : Profile) : List (String × PyVal) :=
  [("network_install", p.network_install.get),
   ("min_device_bytes", p.min_device_bytes.get),
   ("device", p.device.get),
   ("boot_label", p.boot_label.get),
   ("time_zone", p.time_zone.get),
   ("hostname", p.hostname.get),
   ("root_password", p.root_password.get),
   ("username", p.username.get),
   ("user_password", p.user_password.get),
   ("sudo_group", p.sudo_group.get),
   ("restart", p.restart.get)]

/-- One iteration of the loop in `dict_to_profile`: for a recognized key,
run `field.set(value)` on the corresponding field (on failure a warning is
logged and the field keeps its existing value); unrecognized keys only log
a warning.  The dynamic `hasattr`/`getattr`/`setattr` dispatch is modeled
by name matching. -/
def applyEntry (p : Profile) (kv : String × PyVal) : Profile :=
  if kv.1 = "network_install" then { p with network_install := (p.network_install.set kv.2).1 }
  else if kv.1 = "min_device_bytes" then { p with min_device_bytes := (p.min_device_bytes.set kv.2).1 }
  else if kv.1 = "device" then { p with device := (p.device.set kv.2).1 }
  else if kv.1 = "boot_label" then { p with boot_label := (p.boot_label.set kv.2).1 }
  else if kv.1 = "time_zone" then { p with time_zone := (p.time_zone.set kv.2).1 }
  else if kv.1 = "hostname" then { p with hostname := (p.hostname.set kv.2).1 }
  else if kv.1 = "root_password" then { p with root_password := (p.root_password.set kv.2).1 }
  else if kv.1 = "username" then { p with username := (p.username.set kv.2).1 }
  else if kv.1 = "user_password" then { p with user_password := (p.user_password.set kv.2).1 }
  else if kv.1 = "sudo_group" then { p with sudo_group := (p.sudo_group.set kv.2).1 }
  else if kv.1 = "restart" then { p with restart := (p.restart.set kv.2).1 }
  else p

/-- `dict_to_profile`: start from a fresh default `Profile` and apply every
entry of the mapping in order. -/
def dict_to_profile (d : List (String × PyVal)) : Profile :=
  d.foldl applyEntry defaultProfile

/-!
### `CursesApp` terminal state and event loops
-/

/-- The terminal-relevant state of a `CursesApp`: the `good`/`clean` flags
and the terminal settings mutated by `cleanup` (`screen.keypad`, cursor
visibility, echo, cbreak, and whether `endwin` has run). -/
structure AppState where
  good : Bool
  clean : Bool
  keypadOn : Bool
  cursorVisible : Bool
  echo : Bool
  cbreak : Bool
  endwinDone : Bool
deriving DecidableEq, Repr

/-- `CursesApp.cleanup`: set `good = False`; if not yet clean, restore the
terminal settings (`keypad(False)`, show cursor, `echo()`, `nocbreak()`,
`endwin()`) and mark clean. -/
def appCleanup (s : AppState) : AppState :=
  if s.clean = false then
    { s with good := false, keypadOn := false, cursorVisible := true,
             echo := true, cbreak := false, endwinDone := true, clean := true }
  else { s with good := false }

/-- The cursor clamp performed after the up/down branches of
`CursesApp.select`: `cursor_index = max(cursor_index, 0)` then
`cursor_index = min(cursor_index, len(items) - 1)`. -/
def clampCursor (len : Nat) (c : Int) : Int :=
  min (max c 0) ((len : Int) - 1)

/-- The event loop of `CursesApp.select`, driven by the sequence of key
presses.  Result `some (some i)` models `return cursor_index` (confirmed),
`some none` models `return None` (cancellation, a failed confirmation
predicate, or a non-string item — the last cannot occur here since items
are `String`s), and `none` means the key sequence was exhausted with the
loop still awaiting the next key.  Keys other than the recognized ones show
the help screen and `continue` without touching the cursor; the clamp runs
only on the up/down branches (the other branches `return` or `continue`
before reaching it).  The per-iteration rendering touches only
`items[0 .. len-1]` and is not part of the returned value. -/
def selectLoop (items : List String) (validator : String → Bool) :
    Int → List String → Option (Option Nat)
  | _, [] => none
  | c, key :: rest =>
    if key = "j" || key = "KEY_DOWN" then
      selectLoop items validator (clampCursor items.length (c + 1)) rest
    else if key = "k" || key = "KEY_UP" then
      selectLoop items validator (clampCursor items.length (c - 1)) rest
    else if key = "q" then some none
    else if key = ";" || key = "\n" then
      if validator (items.getD c.toNat "") then some (some c.toNat) else some none
    else selectLoop items validator c rest

/-- `CursesApp.select`: reject an empty item list up front (`return None`
after logging), otherwise run the event loop from the starting cursor. -/
def select (items : List String) (validator : String → Bool) (cursor : Int)
    (keys : List String) : Option (Option Nat) :=
  if items.length ≤ 0 then some none
  else selectLoop items validator cursor keys

/-- The event loop of `CursesApp.input`, returning the buffer passed to
`Field.set` at the confirm key (`none` when the key sequence is exhausted
first).  A non-confirm key appends itself to the buffer when it is a single
character, and the dedicated `"KEY_BACKSPACE"` key (never a single
character) removes the last buffer character. -/
def inputLoop (resp : String) : List String → Option String
  | [] => none
  | key :: rest =>
    if key = "\n" then some resp
    else
      let r1 := if key.length = 1 then resp ++ key else resp
      let r2 := if key = "KEY_BACKSPACE" then dropLastStr r1 else r1
      inputLoop r2 rest

/-- The candidate string handed to `Field.set` by `CursesApp.input` when
seeded with the field's current textual value (`response = field.get_str()`). -/
def inputCandidate (f : Field) (keys : List String) : Option String :=
  inputLoop f.getStr keys

/-- `CursesApp.input`: on confirm, apply the buffer to the field via
`Field.set` and return the field regardless of acceptance. -/
def inputApply (f : Field) (keys : List String) : Option Field :=
  match inputCandidate f keys with
  | some c => some (f.set (.str c)).1
  | none => none

/-- The `device` branch of `interactive_conf` (`cursor_index == 2`):
`profile.device.set(app.get_device(...))`, where the sub-interaction's
result is `None` on cancellation or failure and a device path string on
success. -/
def deviceBranch (p : Profile) (result : Option String) : Profile :=
  { p with device := (p.device.set (match result with
      | some s => .str s
      | none => .none)).1 }

/-!
### Theorems settling the claims
-/

/-- Claim C1: the claim states that flushing to plain output drains the
entire queue, printing only within-threshold messages and filing every
message; in particular, with threshold `error`, pushing a `verbose` and
then an `error` message and flushing should display only the error message
and file both.  The code instead `break`s out of the drain loop at the
first message whose level exceeds the threshold: on that input it consumes
and files only the verbose message, prints nothing, and leaves the error
message queued (and unfiled).  This theorem evaluates
`Logger.show_all_as_ansi` at that failing input. -/
theorem C1_flush_stops_at_suppressed :
    Logger.showAllAsAnsi ⟨[⟨"verbose msg", .verbose⟩, ⟨"error msg", .error⟩], .error, some []⟩
      = (⟨[⟨"error msg", .error⟩], .error, some ["verbose msg"]⟩, []) := by
  decide

/-- Claim C2: the claim (and the spec) state that when the confirm key is
pressed and the per-item confirmation predicate rejects the highlighted
item, the selection loop keeps awaiting keys at the same cursor position.
In the code the rejected-confirmation branch executes `return None`, ending
the interaction exactly like a cancellation.  Here the outcome encoding is:
`some none` = the loop returned `None`, `none` = the key sequence was
exhausted with the loop still awaiting a key.  With an always-false
predicate and further keys pending after the confirm key, the loop
terminates immediately with `some none` instead of consuming the remaining
keys. -/
theorem C2_rejected_confirm_terminates :
    selectLoop
      ["No. Select a different device.", "Yes. Permanently delete all data on /dev/sdb."]
      (fun _ => false) 0 [";", "j", "j"] = some none := by
  decide

/-- Claim C3 (counterexample): the claim states that in text-input mode
seeded with `"main"`, pressing erase once, typing `"e"`, and confirming
passes the candidate `"mae"` to `Field.set`.  Erasing once turns `"main"`
into `"mai"` and typing `"e"` appends, so the candidate is `"maie"`, not
`"mae"`. -/
theorem C3_counterexample :
    inputCandidate ⟨.str "main", name_validator⟩ ["KEY_BACKSPACE", "e", "\n"]
      ≠ some "mae" := by
  decide

/-- Claim C3 (amended): in text-input mode seeded with the field's current
value `"main"`, pressing the erase key once, typing `"e"`, and pressing
confirm passes the candidate `"maie"` to `Field.set` (which accepts it, so
the stored value becomes `"maie"`). -/
theorem C3_input_candidate_maie :
    inputCandidate ⟨.str "main", name_validator⟩ ["KEY_BACKSPACE", "e", "\n"]
        = some "maie"
      ∧ (inputApply ⟨.str "main", name_validator⟩ ["KEY_BACKSPACE", "e", "\n"]).map Field.get
        = some (.str "maie") := by
  constructor
  · rfl
  · rfl

/-- Pop order of a full drain: repeatedly calling `_get_next` yields the
queue contents unchanged and in order. -/
lemma drainList_fst (ms : List Message) (f : Option (List String)) :
    (drainList ms f).1 = ms := by
  induction ms generalizing f with
  | nil => rfl
  | cons m rest ih => simp [drainList, ih]

/-- Claim C7: the `MessageLog` is FIFO.  Pushing messages `A`, `B`, `C` in
that order (with any severity levels) onto an empty queue and draining via
`_get_next` yields exactly `A`, then `B`, then `C`; and from any prior
queue contents, draining yields the prior contents followed by `A`, `B`,
`C` — insertion order is preserved across every drain. -/
theorem C7_fifo_order :
    (∀ l : Logger, l.log = [] → ∀ A B C : Message,
      ((((l.put A.raw A.level).put B.raw B.level).put C.raw C.level).drainAll).1 = [A, B, C])
    ∧ (∀ l : Logger, ∀ A B C : Message,
      ((((l.put A.raw A.level).put B.raw B.level).put C.raw C.level).drainAll).1
        = l.log ++ [A, B, C]) := by
  constructor
  · intro l hl A B C
    simp [Logger.put, Logger.drainAll, drainList_fst, hl]
  · intro l A B C
    simp [Logger.put, Logger.drainAll, drainList_fst]

/-- Claim C7 witness: a concrete drain of three pushed messages. -/
theorem C7_fifo_order_witness :
    (((((⟨[], .verbose, none⟩ : Logger).put "a" .error).put "b" .verbose).put "c" .normal).drainAll).1
      = [⟨"a", .error⟩, ⟨"b", .verbose⟩, ⟨"c", .normal⟩] :=
  C7_fifo_order.1 ⟨[], .verbose, none⟩ rfl ⟨"a", .error⟩ ⟨"b", .verbose⟩ ⟨"c", .normal⟩

/-- Claim C8: the claim states that teardown of both the terminal session
and the message log is idempotent from any state.  `CursesApp.cleanup` is
idempotent (second conjunct).  `Logger.cleanup`, however, flushes with the
same early-`break` loop as `show_all_as_ansi`: from a state whose queue
holds a suppressed message followed by a visible one (threshold `error`,
queue `[verbose, error]`, no sink file), the first cleanup consumes only
the verbose message, and a second cleanup consumes and prints the error
message — so invoking teardown twice does not produce the observable state
of invoking it once (first conjunct evaluates the code at that failing
input). -/
theorem C8_cleanup_idempotence_fails_for_logger :
    cleanupTwice ⟨[⟨"verbose msg", .verbose⟩, ⟨"error msg", .error⟩], .error, none⟩
        ≠ cleanupOnce ⟨[⟨"verbose msg", .verbose⟩, ⟨"error msg", .error⟩], .error, none⟩
      ∧ ∀ a : AppState, appCleanup (appCleanup a) = appCleanup a := by
  constructor
  · decide
  · intro a
    by_cases h : a.clean = false
    · simp [appCleanup, h]
    · simp [appCleanup, h]

/-- Claim C9: selecting the device entry in the profile editor runs
`profile.device.set(app.get_device(...))`.  The device field's validator is
the always-accepting `default_validator`, so when the sub-interaction is
cancelled or fails (result `None`), `set` succeeds and stores `None`: a
previously selected device is not preserved. -/
theorem C9_cancelled_device_overwrites (p : Profile)
    (hv : p.device.validator = default_validator) :
    (deviceBranch p none).device.get = PyVal.none ∧ (p.device.set PyVal.none).2 = true := by
  unfold deviceBranch Field.set Field.get
  rw [hv]
  simp [default_validator]

/-- Claim C9 witness: a profile whose device field currently holds
`/dev/sda` loses it when the device sub-interaction yields nothing. -/
theorem C9_cancelled_device_overwrites_witness :
    (deviceBranch
        { defaultProfile with device := ⟨PyVal.str "/dev/sda", default_validator⟩ }
        none).device.get = PyVal.none
      ∧ (Field.set ⟨PyVal.str "/dev/sda", default_validator⟩ PyVal.none).2 = true :=
  C9_cancelled_device_overwrites
    { defaultProfile with device := ⟨PyVal.str "/dev/sda", default_validator⟩ } rfl

/-- An ASCII lowercase letter is not the hyphen. -/
lemma isAsciiLower_ne_hyphen {c : Char} (h : isAsciiLower c = true) : c ≠ '-' := by
  intro he
  rw [he] at h
  exact absurd h (by decide)

/-- An ASCII digit is uncased. -/
lemma digit_not_cased {c : Char} (h : isAsciiDigit c = true) : pyCased c = false := by
  simp [isAsciiDigit] at h
  simp [pyCased, isAsciiLower, isAsciiUpper]
  omega

/-- Claim C4 (counterexample): the claim states that every 64-character
candidate drawn only from lowercase letters, digits, and hyphens is
accepted by the hostname validator.  The validator checks Python's
`islower()` on the hyphen-stripped candidate, and `islower()` is false on a
string with no cased character, so the all-digit candidate `"0" * 64` — 64
characters, all from the claimed class — is rejected. -/
theorem C4_counterexample :
    (String.mk (List.replicate 64 '0')).length = 64
    ∧ (∀ c ∈ (String.mk (List.replicate 64 '0')).data,
        isAsciiLower c = true ∨ isAsciiDigit c = true ∨ c = '-')
    ∧ hostname_validator (String.mk (List.replicate 64 '0')) = false :=
  ⟨by decide, by decide, by decide⟩

/-- Claim C4 (amended): every hostname candidate longer than 64 characters
is rejected; and every candidate of exactly 64 characters drawn only from
lowercase letters, digits, and hyphens that contains at least one lowercase
letter is accepted (the letter is what makes Python's `islower()` hold on
the hyphen-stripped candidate; without any letter the validator rejects,
see the counterexample). -/
theorem C4_hostname_length_and_accept :
    (∀ s : String, 64 < s.length → hostname_validator s = false)
    ∧ (∀ s : String, s.length = 64 →
        (∀ c ∈ s.data, isAsciiLower c = true ∨ isAsciiDigit c = true ∨ c = '-') →
        (∃ c ∈ s.data, isAsciiLower c = true) →
        hostname_validator s = true) := by
  constructor
  · intro s hs
    have h0 : ¬ s.length = 0 := by omega
    simp [hostname_validator, h0, hs]
  · intro s hlen hclass hex
    obtain ⟨c, hcmem, hclow⟩ := hex
    have h0 : ¬ s.length = 0 := by omega
    have h64 : ¬ 64 < s.length := by omega
    have hcs : c ∈ s.data.filter (fun x => x ≠ '-') := by
      rw [List.mem_filter]
      exact ⟨hcmem, by simpa using isAsciiLower_ne_hyphen hclow⟩
    have hlow : pyIsLowerList (s.data.filter (fun x => x ≠ '-')) = true := by
      unfold pyIsLowerList
      rw [Bool.and_eq_true]
      constructor
      · rw [List.any_eq_true]
        exact ⟨c, hcs, by simp [pyCased, hclow]⟩
      · rw [List.all_eq_true]
        intro x hx
        rw [List.mem_filter] at hx
        obtain ⟨hxmem, hxne⟩ := hx
        rcases hclass x hxmem with h | h | h
        · simp [h]
        · simp [digit_not_cased h]
        · exact absurd h (by simpa using hxne)
    have haln : pyIsAlnumList (s.data.filter (fun x => x ≠ '-')) = true := by
      unfold pyIsAlnumList
      rw [Bool.and_eq_true]
      constructor
      · have hne := List.ne_nil_of_mem hcs
        simp_all [List.isEmpty_iff]
      · rw [List.all_eq_true]
        intro x hx
        rw [List.mem_filter] at hx
        rcases hclass x hx.1 with h | h | h
        · simp [pyIsAlnumChar, pyCased, h]
        · simp [pyIsAlnumChar, pyIsNumericChar, h]
        · exact absurd h (by simpa using hx.2)
    unfold hostname_validator
    rw [if_neg h0, if_neg h64, hlow, haln]
    rfl

/-- Claim C4 witness: a 65-`'a'` candidate is rejected and a 64-`'a'`
candidate is accepted. -/
theorem C4_hostname_length_and_accept_witness :
    64 < (String.mk (List.replicate 65 'a')).length
    ∧ hostname_validator (String.mk (List.replicate 65 'a')) = false
    ∧ (String.mk (List.replicate 64 'a')).length = 64
    ∧ hostname_validator (String.mk (List.replicate 64 'a')) = true :=
  ⟨by decide,
   C4_hostname_length_and_accept.1 (String.mk (List.replicate 65 'a')) (by decide),
   by decide,
   C4_hostname_length_and_accept.2 (String.mk (List.replicate 64 'a'))
     (by decide) (by decide) (by decide)⟩

/-- Claim C5 (counterexample): the claim states that every candidate for
the numeric byte-count field containing a character that is not a digit is
rejected by `Field.set`.  Python's `str.isnumeric` also accepts characters
with a Unicode `Numeric_Type` that are not digits, such as the vulgar
fraction `'¼'` (for which `str.isdigit` is also false): `set` on the
candidate `"¼"` succeeds and overwrites the stored value. -/
theorem C5_counterexample :
    ¬ (∀ c ∈ "¼".data, isAsciiDigit c = true)
    ∧ (defaultProfile.min_device_bytes.set (.str "¼")).2 = true
    ∧ (defaultProfile.min_device_bytes.set (.str "¼")).1.value = .str "¼" :=
  ⟨by decide, rfl, rfl⟩

/-- Claim C5 (amended): for every candidate string for the numeric
byte-count field containing at least one character that is not numeric (in
the sense of Python's `str.isnumeric`), `Field.set` returns false and the
field — its stored value in particular — is unchanged. -/
theorem C5_nonnumeric_candidate_rejected (f : Field) (s : String)
    (hv : f.validator = numeric_validator)
    (h : ∃ c ∈ s.data, pyIsNumericChar c = false) :
    (f.set (.str s)).2 = false ∧ (f.set (.str s)).1 = f := by
  obtain ⟨c, hc, hnc⟩ := h
  have hall : s.data.all pyIsNumericChar = false := by
    rw [List.all_eq_false]
    exact ⟨c, hc, by simp [hnc]⟩
  have hval : numeric_validator s = false := by
    simp [numeric_validator, pyIsNumeric, hall]
  unfold Field.set
  rw [hv]
  simp [PyVal.toStr, hval]

/-- Claim C5 witness: the candidate `"12b"` (containing the non-numeric
`'b'`) is rejected by the default byte-count field and leaves it
unchanged. -/
theorem C5_nonnumeric_candidate_rejected_witness :
    (defaultProfile.min_device_bytes.set (.str "12b")).2 = false
    ∧ (defaultProfile.min_device_bytes.set (.str "12b")).1
        = defaultProfile.min_device_bytes :=
  C5_nonnumeric_candidate_rejected defaultProfile.min_device_bytes "12b" rfl
    ⟨'b', by decide, by decide⟩

/-- Claim C6: for every `Profile` whose stored field values each pass the
field's validator in textual form, exporting with `Profile.to_dict` and
reconstructing with `dict_to_profile` yields a `Profile` in which every
field's `get()` equals the original's. -/
theorem C6_profile_roundtrip (p : Profile)
    (h1 : default_validator (p.network_install.get).toStr = true)
    (h2 : numeric_validator (p.min_device_bytes.get).toStr = true)
    (h3 : default_validator (p.device.get).toStr = true)
    (h4 : boot_label_validator (p.boot_label.get).toStr = true)
    (h5 : default_validator (p.time_zone.get).toStr = true)
    (h6 : hostname_validator (p.hostname.get).toStr = true)
    (h7 : password_validator (p.root_password.get).toStr = true)
    (h8 : name_validator (p.username.get).toStr = true)
    (h9 : password_validator (p.user_password.get).toStr = true)
    (h10 : name_validator (p.sudo_group.get).toStr = true)
    (h11 : default_validator (p.restart.get).toStr = true) :
    (dict_to_profile p.to_dict).network_install.get = p.network_install.get
    ∧ (dict_to_profile p.to_dict).min_device_bytes.get = p.min_device_bytes.get
    ∧ (dict_to_profile p.to_dict).device.get = p.device.get
    ∧ (dict_to_profile p.to_dict).boot_label.get = p.boot_label.get
    ∧ (dict_to_profile p.to_dict).time_zone.get = p.time_zone.get
    ∧ (dict_to_profile p.to_dict).hostname.get = p.hostname.get
    ∧ (dict_to_profile p.to_dict).root_password.get = p.root_password.get
    ∧ (dict_to_profile p.to_dict).username.get = p.username.get
    ∧ (dict_to_profile p.to_dict).user_password.get = p.user_password.get
    ∧ (dict_to_profile p.to_dict).sudo_group.get = p.sudo_group.get
    ∧ (dict_to_profile p.to_dict).restart.get = p.restart.get := by
  simp only [Field.get] at h1 h2 h3 h4 h5 h6 h7 h8 h9 h10 h11
  simp [dict_to_profile, Profile.to_dict, List.foldl, applyEntry, defaultProfile,
        Field.set, Field.get, h1, h2, h3, h4, h5, h6, h7, h8, h9, h10, h11]

/-- Claim C6 witness: the default profile round-trips (every default value
passes its validator). -/
theorem C6_profile_roundtrip_witness :
    (dict_to_profile defaultProfile.to_dict).hostname.get = defaultProfile.hostname.get
    ∧ (dict_to_profile defaultProfile.to_dict).min_device_bytes.get
        = defaultProfile.min_device_bytes.get
    ∧ (dict_to_profile defaultProfile.to_dict).username.get = defaultProfile.username.get
    ∧ (dict_to_profile defaultProfile.to_dict).device.get = defaultProfile.device.get := by
  have h := C6_profile_roundtrip defaultProfile (by decide) (by decide) (by decide)
    (by decide) (by decide) (by decide) (by decide) (by decide) (by decide)
    (by decide) (by decide)
  exact ⟨h.2.2.2.2.2.1, h.2.1, h.2.2.2.2.2.2.2.1, h.2.2.1⟩

/-- The clamp of `CursesApp.select` keeps the cursor inside
`[0, len(items) - 1]` whenever the item list is non-empty. -/
lemma clampCursor_mem (len : Nat) (hlen : len ≠ 0) (c : Int) :
    0 ≤ clampCursor len c ∧ clampCursor len c < (len : Int) := by
  unfold clampCursor
  have h1 : (1 : Int) ≤ (len : Int) := by exact_mod_cast Nat.one_le_iff_ne_zero.mpr hlen
  constructor
  · exact le_min (le_max_right c 0) (by omega)
  · exact lt_of_le_of_lt (min_le_right _ _) (by omega)

/-- Loop invariant of `CursesApp.select`: starting from a cursor inside
`[0, len(items) - 1]`, a confirmed result is an index inside
`[0, len(items) - 1]` (the cursor only changes through the clamp, so every
`items[cursor_index]` access along the way is in bounds). -/
lemma selectLoop_confirmed_lt (items : List String) (v : String → Bool) :
    ∀ (keys : List String) (c : Int), 0 ≤ c → c < (items.length : Int) →
    ∀ i, selectLoop items v c keys = some (some i) → i < items.length := by
  intro keys
  induction keys with
  | nil =>
    intro c h0 hc i h
    simp [selectLoop] at h
  | cons key rest ih =>
    intro c h0 hc i h
    have hlen : items.length ≠ 0 := by omega
    rw [selectLoop] at h
    split at h
    · exact ih _ (clampCursor_mem _ hlen _).1 (clampCursor_mem _ hlen _).2 i h
    · split at h
      · exact ih _ (clampCursor_mem _ hlen _).1 (clampCursor_mem _ hlen _).2 i h
      · split at h
        · simp at h
        · split at h
          · split at h
            · have hi : i = c.toNat := by
                simpa using h.symm
              subst hi
              omega
            · simp at h
          · exact ih _ h0 hc i h

/-- Claim C10: for every call to the selection loop with a non-empty item
list and a starting cursor inside `[0, len(items) - 1]`, a confirmed result
is an index inside `[0, len(items) - 1]` (cancellation and failure return
no index), and after each up/down key the clamp puts the cursor back inside
`[0, len(items) - 1]` — so every `items[cursor_index]` access of the loop
is within bounds (the render pass touches only indices `0 .. len-1` by
construction). -/
theorem C10_select_stays_in_bounds (items : List String) (v : String → Bool)
    (start : Int) (keys : List String) (hne : items ≠ [])
    (h0 : 0 ≤ start) (hs : start < (items.length : Int)) :
    (∀ i, selectLoop items v start keys = some (some i) → i < items.length)
    ∧ (∀ c : Int, 0 ≤ clampCursor items.length c
        ∧ clampCursor items.length c < (items.length : Int)) := by
  have hlen : items.length ≠ 0 := by
    have := List.length_pos.mpr hne
    omega
  exact ⟨selectLoop_confirmed_lt items v keys start h0 hs,
    fun c => clampCursor_mem items.length hlen c⟩

/-- Claim C10 witness: a two-item selection confirmed after one down key
yields the in-bounds index 1. -/
theorem C10_select_stays_in_bounds_witness :
    (["item one", "item two"] : List String) ≠ []
    ∧ (0 : Int) ≤ 0
    ∧ (0 : Int) < ((["item one", "item two"] : List String).length : Int)
    ∧ 1 < (["item one", "item two"] : List String).length :=
  ⟨by decide, by decide, by decide,
    (C10_select_stays_in_bounds ["item one", "item two"] (fun _ => true) 0 ["j", ";"]
      (by decide) (by decide) (by decide)).1 1 rfl⟩

end AutoMoos
